import Mathlib

/-!
Shallow embedding of the Risk_Reward repository (src/main.py) and proofs of
the specification claims about it.

Numbers are modelled as rationals: the spec's data model calls every input a
real number, and the arithmetic of the source is exact on all the values the
claims exercise.  The Streamlit widget calls of `main` are modelled by pure
functions returning the values and message strings the source passes to the
widgets.  Python's `float()` parser is left abstract (a `String → Option ℚ`
parameter): no claim depends on which strings parse, only on what the caller
does with the outcomes.
-/

namespace RiskReward

attribute [local semireducible] Rat.mul Rat.add Rat.sub Rat.inv

/-- Python's builtin `abs` on numbers. -/
def qabs (q : ℚ) : ℚ := if q < 0 then -q else q

theorem qabs_eq_abs (q : ℚ) : qabs q = |q| := by
  unfold qabs
  rcases lt_or_le q 0 with h | h
  · rw [if_pos h, abs_of_neg h]
  · rw [if_neg (not_lt.mpr h), abs_of_nonneg h]

/-- Embedding of `calculate_risk_reward` (src/main.py lines 4-35).
Argument order follows the Python signature exactly:
`(avg_price, max_against_price, target_price, tick_size, no_of_lots,
tick_value, tc_per_lot, total_lots_entry_exit, rebate_per_lot)`. -/
def calculate_risk_reward (avg_price max_against_price target_price tick_size
    no_of_lots tick_value tc_per_lot total_lots_entry_exit
    rebate_per_lot : ℚ) : ℚ × ℚ :=
  let price_movement_risk := qabs (avg_price - max_against_price) / tick_size
  let risk_from_price := price_movement_risk * no_of_lots * tick_value
  let transaction_cost := tc_per_lot * total_lots_entry_exit * 2 * no_of_lots
  let rebate_benefit := rebate_per_lot * total_lots_entry_exit * 2 * no_of_lots
  let total_risk := risk_from_price + transaction_cost - rebate_benefit
  let price_movement_reward := qabs (avg_price - target_price) / tick_size
  let reward_from_price := price_movement_reward * no_of_lots * tick_value
  let total_reward := reward_from_price - transaction_cost + rebate_benefit
  (total_risk, total_reward)

/-- Floor of a rational, computed on the numerator and denominator so the
kernel can evaluate it on concrete inputs. -/
def qfloor (q : ℚ) : ℤ := Int.fdiv q.num q.den

/-- Round a rational to the nearest integer, ties to even: the rounding mode
of Python's fixed-point string formatting, as recorded by the spec. -/
def roundHalfEven (x : ℚ) : ℤ :=
  let f := qfloor x
  let r := x - (f : ℚ)
  if (1 : ℚ) / 2 < r then f + 1
  else if r < (1 : ℚ) / 2 then f
  else if f % 2 = 0 then f else f + 1

/-- A decimal digit list of exactly `d` digits (leading zeros kept),
representing `m` modulo `10 ^ d`; used for the fractional part of a
fixed-point rendering. -/
def padDigitsAux : Nat → Nat → List Char
  | 0, _ => []
  | d + 1, m => padDigitsAux d (m / 10) ++ [Nat.digitChar (m % 10)]

/-- String form of `padDigitsAux`. -/
def padDigits (d m : Nat) : String := ⟨padDigitsAux d m⟩

/-- Model of Python's fixed-point formatting `f"{v:.df}"`: round half to
even at `d` decimals, minus sign for negative inputs, fractional part padded
to exactly `d` digits. -/
def pyFixed (v : ℚ) (d : Nat) : String :=
  let m := (roundHalfEven (qabs v * 10 ^ d)).toNat
  (if v < 0 then "-" else "") ++ Nat.repr (m / 10 ^ d) ++ "." ++ padDigits d (m % 10 ^ d)

/-- Insert a comma before every further group of three digits, working on
the reversed digit list; `i` counts the digits already emitted. -/
def addCommasAux : List Char → Nat → List Char
  | [], _ => []
  | c :: cs, i =>
    (if 0 < i ∧ i % 3 = 0 then [',', c] else [c]) ++ addCommasAux cs (i + 1)

/-- Group the digits of a decimal integer string in threes with commas, as
Python's thousands-separator format option does. -/
def commaGroup (s : String) : String := ⟨(addCommasAux s.data.reverse 0).reverse⟩

/-- Model of Python's `f"{v:,.2f}"`: two decimals, thousands separators in
the integer part. -/
def pyCommaFixed2 (v : ℚ) : String :=
  let m := (roundHalfEven (qabs v * 100)).toNat
  (if v < 0 then "-" else "") ++ commaGroup (Nat.repr (m / 100)) ++ "." ++ padDigits 2 (m % 100)

/-- Embedding of `format_currency` (src/main.py lines 37-46). -/
def format_currency (value : ℚ) : String :=
  if 1 ≤ qabs value then "$" ++ pyCommaFixed2 value
  else if 1 / 100 ≤ qabs value then "$" ++ pyFixed value 4
  else if 1 / 10000 ≤ qabs value then "$" ++ pyFixed value 6
  else "$" ++ pyFixed value 8

/-- The value and delta strings of the Risk:Reward Ratio metric widget
(src/main.py lines 190-202): the pair is `(value, delta)`. -/
def risk_reward_metric (risk reward : ℚ) : String × String :=
  if risk ≠ 0 then
    let r := qabs (reward / risk)
    ("1:" ++ pyFixed r 3, if 1 ≤ r then (if 2 ≤ r then "Good" else "Poor") else "Bad")
  else ("N/A", "Risk is zero")

/-- The kind and text of a Streamlit message panel, as produced by
`st.success`, `st.warning`, `st.error` and `st.info`. -/
inductive UiMessage where
  | success (s : String)
  | warning (s : String)
  | error (s : String)
  | info (s : String)
deriving DecidableEq

/-- Whether a message panel is the informational kind (`st.info`). -/
def UiMessage.isInfo : UiMessage → Bool
  | .info _ => true
  | _ => false

/-- The Analysis Insights panel (src/main.py lines 247-258). -/
def analysis_insight (risk reward : ℚ) : UiMessage :=
  if risk ≠ 0 then
    let r := qabs (reward / risk)
    if 3 ≤ r then
      .success ("✅ Excellent Risk-Reward ratio of 1:" ++ pyFixed r 3 ++
        "! This is a very favorable trade setup.")
    else if 2 ≤ r then
      .success ("✅ Good Risk-Reward ratio of 1:" ++ pyFixed r 3 ++
        ". This trade has favorable odds.")
    else if 1 ≤ r then
      .warning ("⚠️ Moderate Risk-Reward ratio of 1:" ++ pyFixed r 3 ++
        ". Consider if the probability of success justifies this ratio.")
    else
      .error ("❌ Poor Risk-Reward ratio of 1:" ++ pyFixed r 3 ++
        ". This trade setup is not favorable.")
  else
    .info "ℹ️ Risk is zero - please verify your inputs."

/-- Python's `str.strip()`: drop whitespace from both ends. -/
def pyStrip (s : String) : String :=
  ⟨((s.data.dropWhile Char.isWhitespace).reverse.dropWhile Char.isWhitespace).reverse⟩

/-- The nine raw text-input strings collected by the form. -/
structure RawInputs where
  avg_price_str : String
  max_against_price_str : String
  target_price_str : String
  tick_size_str : String
  no_of_lots_str : String
  tick_value_str : String
  total_lots_entry_exit_str : String
  tc_per_lot_str : String
  rebate_per_lot_str : String

/-- The `required_fields` list of (value, name) pairs (src/main.py
lines 126-134). -/
def required_fields (r : RawInputs) : List (String × String) :=
  [(r.avg_price_str, "Average Price"),
   (r.max_against_price_str, "Max Against Price"),
   (r.target_price_str, "Target Price"),
   (r.tick_size_str, "Tick Size"),
   (r.no_of_lots_str, "Number of Lots"),
   (r.tick_value_str, "Tick Value"),
   (r.total_lots_entry_exit_str, "Total Lots for Entry/Exit")]

/-- The `missing_fields` comprehension (src/main.py line 137): names of the
required fields that are empty after stripping. -/
def missing_fields (r : RawInputs) : List String :=
  ((required_fields r).filter (fun p => pyStrip p.1 = "")).map Prod.snd

/-- How one submission of the form ends: a validation error, or the computed
risk/reward pair. -/
inductive SubmitOutcome where
  | missing (names : List String)
  | invalidNumber
  | zeroTickSize
  | results (risk reward : ℚ)
deriving DecidableEq

/-- The `st.error` text attached to each failing outcome (src/main.py
lines 140, 156, 160). -/
def submit_error_message : SubmitOutcome → Option String
  | .missing names =>
      some ("Please fill in the following required fields: " ++
        String.intercalate ", " names)
  | .invalidNumber =>
      some "Please enter valid numbers in all fields. Check for any invalid characters."
  | .zeroTickSize => some "Tick size cannot be zero"
  | .results _ _ => none

/-- The conditional conversion of an optional cost field (src/main.py
lines 151-152): blank after stripping means `0.0`, otherwise `float(...)`. -/
def parse_optional (parseNum : String → Option ℚ) (s : String) : Option ℚ :=
  if pyStrip s = "" then some 0 else parseNum s

/-- The validation-and-computation path of the Calculate button handler
(src/main.py lines 124-167), with Python's `float()` abstracted as
`parseNum` (a failed parse is the `ValueError` branch).  The source checks
for blank required fields first, then converts all nine fields, then rejects
a zero tick size, and only then calls `calculate_risk_reward`. -/
def main_submit (parseNum : String → Option ℚ) (r : RawInputs) : SubmitOutcome :=
  if missing_fields r = [] then
    match parseNum r.avg_price_str, parseNum r.max_against_price_str,
      parseNum r.target_price_str, parseNum r.tick_size_str,
      parseNum r.no_of_lots_str, parseNum r.tick_value_str,
      parseNum r.total_lots_entry_exit_str,
      parse_optional parseNum r.tc_per_lot_str,
      parse_optional parseNum r.rebate_per_lot_str with
    | some a, some m, some t, some ts, some nl, some tv, some tle, some tc, some rb =>
      if ts = 0 then .zeroTickSize
      else
        let p := calculate_risk_reward a m t ts nl tv tc tle rb
        .results p.1 p.2
    | _, _, _, _, _, _, _, _, _ => .invalidNumber
  else .missing (missing_fields r)

/-- The recomputed `price_movement_risk_value` of the detailed breakdown
(src/main.py line 208). -/
def price_movement_risk_value (a m ts nl tv : ℚ) : ℚ := qabs (a - m) / ts * nl * tv

/-- The recomputed `price_movement_reward_value` of the detailed breakdown
(src/main.py line 209). -/
def price_movement_reward_value (a t ts nl tv : ℚ) : ℚ := qabs (a - t) / ts * nl * tv

/-- The recomputed `transaction_cost_value` of the detailed breakdown
(src/main.py line 210). -/
def transaction_cost_value (tc tle nl : ℚ) : ℚ := tc * tle * 2 * nl

/-- The recomputed `rebate_value` of the detailed breakdown
(src/main.py line 211). -/
def rebate_value (rb tle nl : ℚ) : ℚ := rb * tle * 2 * nl

/-- C1: for every nine-tuple of rational inputs with tick size nonzero,
`calculate_risk_reward` returns exactly the spec's formulas: risk is the
tick-counted adverse move times lots times tick value plus the
transaction-cost term minus the rebate term, and reward is the move to the
target times lots times tick value minus that same cost term plus that same
rebate term, the cost and rebate terms being shared between the two with
opposite signs. -/
theorem calculate_risk_reward_formula (a m t ts nl tv tc tle rb : ℚ)
    (_hts : ts ≠ 0) :
    calculate_risk_reward a m t ts nl tv tc tle rb =
      (|a - m| / ts * nl * tv + tc * tle * 2 * nl - rb * tle * 2 * nl,
       |a - t| / ts * nl * tv - (tc * tle * 2 * nl) + rb * tle * 2 * nl) := by
  simp [calculate_risk_reward, qabs_eq_abs]

/-- Witness for C1 at a concrete input with nonzero tick size. -/
theorem calculate_risk_reward_formula_witness :
    calculate_risk_reward 5 3 8 1 2 1 1 1 0 =
      (|(5 : ℚ) - 3| / 1 * 2 * 1 + 1 * 1 * 2 * 2 - 0 * 1 * 2 * 2,
       |(5 : ℚ) - 8| / 1 * 2 * 1 - (1 * 1 * 2 * 2) + 0 * 1 * 2 * 2) :=
  calculate_risk_reward_formula 5 3 8 1 2 1 1 1 0 (by norm_num)

/-- C6: swapping the average price and the max-against price (all other
inputs fixed) leaves the total risk returned by `calculate_risk_reward`
unchanged, by the symmetry of the absolute value. -/
theorem total_risk_swap_symm (a m t ts nl tv tc tle rb : ℚ) (_hts : ts ≠ 0) :
    (calculate_risk_reward a m t ts nl tv tc tle rb).1 =
      (calculate_risk_reward m a t ts nl tv tc tle rb).1 := by
  simp [calculate_risk_reward, qabs_eq_abs, abs_sub_comm]

/-- Witness for C6 at a concrete input with nonzero tick size. -/
theorem total_risk_swap_symm_witness :
    (calculate_risk_reward 7 4 9 2 3 5 1 2 1 ).1 =
      (calculate_risk_reward 4 7 9 2 3 5 1 2 1).1 :=
  total_risk_swap_symm 7 4 9 2 3 5 1 2 1 (by norm_num)

/-- C7: doubling the number of lots while holding every other input fixed
doubles both the total risk and the total reward, since the price-movement,
transaction-cost and rebate terms are all linear in the number of lots. -/
theorem doubling_lots_doubles_totals (a m t ts nl tv tc tle rb : ℚ)
    (_hts : ts ≠ 0) :
    calculate_risk_reward a m t ts (2 * nl) tv tc tle rb =
      (2 * (calculate_risk_reward a m t ts nl tv tc tle rb).1,
       2 * (calculate_risk_reward a m t ts nl tv tc tle rb).2) := by
  simp only [calculate_risk_reward, Prod.mk.injEq]
  constructor <;> ring

/-- Witness for C7 at a concrete input with nonzero tick size. -/
theorem doubling_lots_doubles_totals_witness :
    calculate_risk_reward 7 4 9 2 (2 * 3) 5 1 2 1 =
      (2 * (calculate_risk_reward 7 4 9 2 3 5 1 2 1).1,
       2 * (calculate_risk_reward 7 4 9 2 3 5 1 2 1).2) :=
  doubling_lots_doubles_totals 7 4 9 2 3 5 1 2 1 (by norm_num)

/-- C10: the component values recomputed for the detailed-breakdown table
agree with `calculate_risk_reward`: recomputed price-movement risk plus
transaction cost minus rebate equals the returned risk, recomputed
price-movement reward minus transaction cost plus rebate equals the returned
reward, and therefore the formatted Net Risk and Net Reward cells equal the
formatted headline metrics. -/
theorem breakdown_matches_core (a m t ts nl tv tc tle rb : ℚ) (_hts : ts ≠ 0) :
    price_movement_risk_value a m ts nl tv + transaction_cost_value tc tle nl -
        rebate_value rb tle nl =
      (calculate_risk_reward a m t ts nl tv tc tle rb).1 ∧
    price_movement_reward_value a t ts nl tv - transaction_cost_value tc tle nl +
        rebate_value rb tle nl =
      (calculate_risk_reward a m t ts nl tv tc tle rb).2 ∧
    format_currency (price_movement_risk_value a m ts nl tv +
        transaction_cost_value tc tle nl - rebate_value rb tle nl) =
      format_currency ((calculate_risk_reward a m t ts nl tv tc tle rb).1) ∧
    format_currency (price_movement_reward_value a t ts nl tv -
        transaction_cost_value tc tle nl + rebate_value rb tle nl) =
      format_currency ((calculate_risk_reward a m t ts nl tv tc tle rb).2) :=
  ⟨rfl, rfl, rfl, rfl⟩

/-- Witness for C10 at a concrete input with nonzero tick size. -/
theorem breakdown_matches_core_witness :
    price_movement_risk_value 7 4 2 3 5 + transaction_cost_value 1 2 3 -
        rebate_value 1 2 3 = (calculate_risk_reward 7 4 9 2 3 5 1 2 1).1 ∧
    price_movement_reward_value 7 9 2 3 5 - transaction_cost_value 1 2 3 +
        rebate_value 1 2 3 = (calculate_risk_reward 7 4 9 2 3 5 1 2 1).2 ∧
    format_currency (price_movement_risk_value 7 4 2 3 5 +
        transaction_cost_value 1 2 3 - rebate_value 1 2 3) =
      format_currency ((calculate_risk_reward 7 4 9 2 3 5 1 2 1).1) ∧
    format_currency (price_movement_reward_value 7 9 2 3 5 -
        transaction_cost_value 1 2 3 + rebate_value 1 2 3) =
      format_currency ((calculate_risk_reward 7 4 9 2 3 5 1 2 1).2) :=
  breakdown_matches_core 7 4 9 2 3 5 1 2 1 (by norm_num)

/-- C2: `format_currency` selects its precision by the magnitude of the
absolute value and returns a dollar-prefixed string: two decimals with
thousands separators at magnitude at least 1, four decimals on [0.01, 1),
six decimals on [0.0001, 0.01), and eight decimals otherwise (including 0);
in particular 1234.5, 0.0056 and 0.00001234 format as the spec's examples. -/
theorem format_currency_tiers (v : ℚ) :
    (1 ≤ |v| → format_currency v = "$" ++ pyCommaFixed2 v) ∧
    (1 / 100 ≤ |v| → |v| < 1 → format_currency v = "$" ++ pyFixed v 4) ∧
    (1 / 10000 ≤ |v| → |v| < 1 / 100 → format_currency v = "$" ++ pyFixed v 6) ∧
    (|v| < 1 / 10000 → format_currency v = "$" ++ pyFixed v 8) ∧
    format_currency (2469 / 2) = "$1,234.50" ∧
    format_currency (7 / 1250) = "$0.005600" ∧
    format_currency (617 / 50000000) = "$0.00001234" ∧
    format_currency 0 = "$0.00000000" := by
  refine ⟨?_, ?_, ?_, ?_, by decide, by decide, by decide, by decide⟩
  · intro h1
    simp only [format_currency, qabs_eq_abs]
    rw [if_pos h1]
  · intro h1 h2
    simp only [format_currency, qabs_eq_abs]
    rw [if_neg (not_le.mpr h2), if_pos h1]
  · intro h1 h2
    simp only [format_currency, qabs_eq_abs]
    rw [if_neg (not_le.mpr (by linarith)), if_neg (not_le.mpr h2), if_pos h1]
  · intro h1
    simp only [format_currency, qabs_eq_abs]
    rw [if_neg (not_le.mpr (by linarith)), if_neg (not_le.mpr (by linarith)),
      if_neg (not_le.mpr h1)]

/-- Witness for C2: one concrete value in each precision tier. -/
theorem format_currency_tiers_witness :
    format_currency (2469 / 2) = "$" ++ pyCommaFixed2 (2469 / 2) ∧
    format_currency (1 / 2) = "$" ++ pyFixed (1 / 2) 4 ∧
    format_currency (7 / 1250) = "$" ++ pyFixed (7 / 1250) 6 ∧
    format_currency (617 / 50000000) = "$" ++ pyFixed (617 / 50000000) 8 :=
  ⟨(format_currency_tiers (2469 / 2)).1 (by rw [abs_of_pos] <;> norm_num),
   (format_currency_tiers (1 / 2)).2.1 (by rw [abs_of_pos] <;> norm_num)
     (by rw [abs_of_pos] <;> norm_num),
   (format_currency_tiers (7 / 1250)).2.2.1 (by rw [abs_of_pos] <;> norm_num)
     (by rw [abs_of_pos] <;> norm_num),
   (format_currency_tiers (617 / 50000000)).2.2.2.1 (by rw [abs_of_pos] <;> norm_num)⟩

/-- C5: the spec's end-to-end example: with average price 0.008, stop 0.006,
target 0.012, tick size 0.001, 10 lots, tick value 1, 10 lots for
entry/exit and no costs or rebates, the price movement against is 2 ticks
and the movement to target is 4 ticks, the computed totals are 20 and 40,
they display as $20.00 and $40.00, the ratio metric shows 1:2.000, and the
insight classification is the good tier. -/
theorem example_end_to_end :
    calculate_risk_reward (1/125) (3/500) (3/250) (1/1000) 10 1 0 10 0 = (20, 40) ∧
    |(1/125 : ℚ) - 3/500| / (1/1000) = 2 ∧
    |(1/125 : ℚ) - 3/250| / (1/1000) = 4 ∧
    format_currency 20 = "$20.00" ∧
    format_currency 40 = "$40.00" ∧
    (risk_reward_metric 20 40).1 = "1:2.000" ∧
    analysis_insight 20 40 =
      .success "✅ Good Risk-Reward ratio of 1:2.000. This trade has favorable odds." := by
  refine ⟨by decide, ?_, ?_, by decide, by decide, by decide, by decide⟩
  · rw [show |(1/125 : ℚ) - 3/500| = 1/500 by rw [abs_of_pos] <;> norm_num]
    norm_num
  · rw [show |(1/125 : ℚ) - 3/250| = 1/250 by rw [abs_of_neg] <;> norm_num]
    norm_num

/-- C3: the Analysis Insights panel classifies the ratio of reward to risk,
when risk is nonzero, as excellent at 3 or more, good on [2, 3), moderate on
[1, 2), and poor below 1; when risk is zero no ratio is computed, the ratio
metric displays N/A, and an informational message — not an error — is shown
instead of a classification. -/
theorem analysis_insight_tiers (risk reward : ℚ) :
    (risk ≠ 0 → 3 ≤ |reward / risk| →
      analysis_insight risk reward = .success ("✅ Excellent Risk-Reward ratio of 1:" ++
        pyFixed (|reward / risk|) 3 ++ "! This is a very favorable trade setup.")) ∧
    (risk ≠ 0 → 2 ≤ |reward / risk| → |reward / risk| < 3 →
      analysis_insight risk reward = .success ("✅ Good Risk-Reward ratio of 1:" ++
        pyFixed (|reward / risk|) 3 ++ ". This trade has favorable odds.")) ∧
    (risk ≠ 0 → 1 ≤ |reward / risk| → |reward / risk| < 2 →
      analysis_insight risk reward = .warning ("⚠️ Moderate Risk-Reward ratio of 1:" ++
        pyFixed (|reward / risk|) 3 ++
        ". Consider if the probability of success justifies this ratio.")) ∧
    (risk ≠ 0 → |reward / risk| < 1 →
      analysis_insight risk reward = .error ("❌ Poor Risk-Reward ratio of 1:" ++
        pyFixed (|reward / risk|) 3 ++ ". This trade setup is not favorable.")) ∧
    (risk = 0 → (risk_reward_metric risk reward).1 = "N/A" ∧
      analysis_insight risk reward = .info "ℹ️ Risk is zero - please verify your inputs." ∧
      (analysis_insight risk reward).isInfo = true ∧
      ∀ s, analysis_insight risk reward ≠ .error s) := by
  refine ⟨?_, ?_, ?_, ?_, ?_⟩
  · intro h0 h3
    simp only [analysis_insight, qabs_eq_abs]
    rw [if_pos h0, if_pos h3]
  · intro h0 h2 h3
    simp only [analysis_insight, qabs_eq_abs]
    rw [if_pos h0, if_neg (not_le.mpr h3), if_pos h2]
  · intro h0 h1 h2
    simp only [analysis_insight, qabs_eq_abs]
    rw [if_pos h0, if_neg (not_le.mpr (by linarith)), if_neg (not_le.mpr h2), if_pos h1]
  · intro h0 h1
    simp only [analysis_insight, qabs_eq_abs]
    rw [if_pos h0, if_neg (not_le.mpr (by linarith)), if_neg (not_le.mpr (by linarith)),
      if_neg (not_le.mpr h1)]
  · intro h0
    refine ⟨?_, ?_, ?_, ?_⟩
    · simp only [risk_reward_metric]
      rw [if_neg (not_not_intro h0)]
    · simp only [analysis_insight]
      rw [if_neg (not_not_intro h0)]
    · simp only [analysis_insight]
      rw [if_neg (not_not_intro h0)]
      rfl
    · intro s
      simp only [analysis_insight]
      rw [if_neg (not_not_intro h0)]
      simp

/-- Witness for C3: one concrete ratio in each tier and a zero-risk case. -/
theorem analysis_insight_tiers_witness :
    analysis_insight 1 7 = .success ("✅ Excellent Risk-Reward ratio of 1:" ++
      pyFixed (|(7 : ℚ) / 1|) 3 ++ "! This is a very favorable trade setup.") ∧
    analysis_insight 1 2 = .success ("✅ Good Risk-Reward ratio of 1:" ++
      pyFixed (|(2 : ℚ) / 1|) 3 ++ ". This trade has favorable odds.") ∧
    analysis_insight 1 (3/2) = .warning ("⚠️ Moderate Risk-Reward ratio of 1:" ++
      pyFixed (|(3/2 : ℚ) / 1|) 3 ++
      ". Consider if the probability of success justifies this ratio.") ∧
    analysis_insight 1 (1/2) = .error ("❌ Poor Risk-Reward ratio of 1:" ++
      pyFixed (|(1/2 : ℚ) / 1|) 3 ++ ". This trade setup is not favorable.") ∧
    ((risk_reward_metric 0 5).1 = "N/A" ∧
      analysis_insight 0 5 = .info "ℹ️ Risk is zero - please verify your inputs." ∧
      (analysis_insight 0 5).isInfo = true ∧
      ∀ s, analysis_insight 0 5 ≠ .error s) :=
  ⟨(analysis_insight_tiers 1 7).1 (by norm_num) (by rw [abs_of_pos] <;> norm_num),
   (analysis_insight_tiers 1 2).2.1 (by norm_num) (by rw [abs_of_pos] <;> norm_num)
     (by rw [abs_of_pos] <;> norm_num),
   (analysis_insight_tiers 1 (3/2)).2.2.1 (by norm_num) (by rw [abs_of_pos] <;> norm_num)
     (by rw [abs_of_pos] <;> norm_num),
   (analysis_insight_tiers 1 (1/2)).2.2.2.1 (by norm_num) (by rw [abs_of_pos] <;> norm_num),
   (analysis_insight_tiers 0 5).2.2.2.2 rfl⟩

/-- C9: when risk is nonzero the ratio metric's value is the string 1:
followed by the ratio to exactly three decimals (N/A when risk is zero), and
its qualitative delta label uses a scale distinct from the insight tiers:
Good at ratio at least 2, Poor on [1, 2), Bad below 1 — so on [1, 2) the
delta label Poor disagrees with the insight classification, which is the
moderate tier there. -/
theorem metric_value_and_delta (risk reward : ℚ) :
    (risk ≠ 0 → (risk_reward_metric risk reward).1 =
      "1:" ++ pyFixed (|reward / risk|) 3) ∧
    (risk = 0 → (risk_reward_metric risk reward).1 = "N/A") ∧
    (risk ≠ 0 → 2 ≤ |reward / risk| → (risk_reward_metric risk reward).2 = "Good") ∧
    (risk ≠ 0 → 1 ≤ |reward / risk| → |reward / risk| < 2 →
      (risk_reward_metric risk reward).2 = "Poor" ∧
      analysis_insight risk reward = .warning ("⚠️ Moderate Risk-Reward ratio of 1:" ++
        pyFixed (|reward / risk|) 3 ++
        ". Consider if the probability of success justifies this ratio.")) ∧
    (risk ≠ 0 → |reward / risk| < 1 → (risk_reward_metric risk reward).2 = "Bad") := by
  refine ⟨?_, ?_, ?_, ?_, ?_⟩
  · intro h0
    simp only [risk_reward_metric, qabs_eq_abs]
    rw [if_pos h0]
  · intro h0
    simp only [risk_reward_metric]
    rw [if_neg (not_not_intro h0)]
  · intro h0 h2
    simp only [risk_reward_metric, qabs_eq_abs]
    rw [if_pos h0, if_pos (by linarith : (1 : ℚ) ≤ |reward / risk|), if_pos h2]
  · intro h0 h1 h2
    constructor
    · simp only [risk_reward_metric, qabs_eq_abs]
      rw [if_pos h0, if_pos h1, if_neg (not_le.mpr h2)]
    · simp only [analysis_insight, qabs_eq_abs]
      rw [if_pos h0, if_neg (not_le.mpr (by linarith)), if_neg (not_le.mpr h2), if_pos h1]
  · intro h0 h1
    simp only [risk_reward_metric, qabs_eq_abs]
    rw [if_pos h0, if_neg (not_le.mpr h1)]

/-- Witness for C9: concrete ratios 2 (Good), 1.5 (Poor but moderate
insight), 0.5 (Bad), and a zero-risk N/A. -/
theorem metric_value_and_delta_witness :
    (risk_reward_metric 20 40).1 = "1:" ++ pyFixed (|(40 : ℚ) / 20|) 3 ∧
    (risk_reward_metric 0 40).1 = "N/A" ∧
    (risk_reward_metric 20 40).2 = "Good" ∧
    ((risk_reward_metric 20 30).2 = "Poor" ∧
      analysis_insight 20 30 = .warning ("⚠️ Moderate Risk-Reward ratio of 1:" ++
        pyFixed (|(30 : ℚ) / 20|) 3 ++
        ". Consider if the probability of success justifies this ratio.")) ∧
    (risk_reward_metric 20 10).2 = "Bad" :=
  ⟨(metric_value_and_delta 20 40).1 (by norm_num),
   (metric_value_and_delta 0 40).2.1 rfl,
   (metric_value_and_delta 20 40).2.2.1 (by norm_num) (by rw [abs_of_pos] <;> norm_num),
   (metric_value_and_delta 20 30).2.2.2.1 (by norm_num) (by rw [abs_of_pos] <;> norm_num)
     (by rw [abs_of_pos] <;> norm_num),
   (metric_value_and_delta 20 10).2.2.2.2 (by norm_num) (by rw [abs_of_pos] <;> norm_num)⟩

/-- C4: on a fully parsed submission whose tick size parses to zero, the
handler stops with the zero-tick-size outcome — whose message is specific
and distinct from the generic invalid-number message — and never reaches
`calculate_risk_reward`; and with any nonzero tick size the handler always
produces the computed results, so under the caller-enforced precondition the
core calculation is total. -/
theorem zero_tick_size_rejected (parseNum : String → Option ℚ) (r : RawInputs)
    (a m t ts nl tv tle tc rb : ℚ)
    (hmiss : missing_fields r = [])
    (ha : parseNum r.avg_price_str = some a)
    (hm : parseNum r.max_against_price_str = some m)
    (ht : parseNum r.target_price_str = some t)
    (hts : parseNum r.tick_size_str = some ts)
    (hnl : parseNum r.no_of_lots_str = some nl)
    (htv : parseNum r.tick_value_str = some tv)
    (htle : parseNum r.total_lots_entry_exit_str = some tle)
    (htc : parse_optional parseNum r.tc_per_lot_str = some tc)
    (hrb : parse_optional parseNum r.rebate_per_lot_str = some rb) :
    (ts = 0 → main_submit parseNum r = .zeroTickSize) ∧
    (ts ≠ 0 → main_submit parseNum r =
      .results (calculate_risk_reward a m t ts nl tv tc tle rb).1
        (calculate_risk_reward a m t ts nl tv tc tle rb).2) ∧
    submit_error_message .zeroTickSize = some "Tick size cannot be zero" ∧
    submit_error_message .zeroTickSize ≠ submit_error_message .invalidNumber ∧
    (∀ risk reward, (SubmitOutcome.zeroTickSize : SubmitOutcome) ≠ .results risk reward) := by
  have hred : main_submit parseNum r =
      if ts = 0 then SubmitOutcome.zeroTickSize
      else SubmitOutcome.results (calculate_risk_reward a m t ts nl tv tc tle rb).1
        (calculate_risk_reward a m t ts nl tv tc tle rb).2 := by
    unfold main_submit
    rw [if_pos hmiss, ha, hm, ht, hts, hnl, htv, htle, htc, hrb]
  refine ⟨fun h0 => by rw [hred, if_pos h0], fun hne => by rw [hred, if_neg hne],
    rfl, by decide, fun risk reward h => SubmitOutcome.noConfusion h⟩

/-- Witness for C4: a concrete parse function and form contents whose tick
size field parses to zero (outcome: rejected), and the same form with tick
size one (outcome: computed results). -/
theorem zero_tick_size_rejected_witness :
    main_submit (fun s => if s = "0" then some 0 else if s = "1" then some 1 else none)
      ⟨"1", "1", "1", "0", "1", "1", "1", "", ""⟩ = .zeroTickSize ∧
    main_submit (fun s => if s = "0" then some 0 else if s = "1" then some 1 else none)
      ⟨"1", "1", "1", "1", "1", "1", "1", "", ""⟩ =
      .results (calculate_risk_reward 1 1 1 1 1 1 0 1 0).1
        (calculate_risk_reward 1 1 1 1 1 1 0 1 0).2 :=
  ⟨(zero_tick_size_rejected _ _ 1 1 1 0 1 1 1 0 0 (by decide) (by decide) (by decide)
      (by decide) (by decide) (by decide) (by decide) (by decide) (by decide)
      (by decide)).1 rfl,
   (zero_tick_size_rejected _ _ 1 1 1 1 1 1 1 0 0 (by decide) (by decide) (by decide)
      (by decide) (by decide) (by decide) (by decide) (by decide) (by decide)
      (by decide)).2.1 (by norm_num)⟩

/-- C8: when at least one required field is blank after stripping, the
handler reports the missing outcome carrying exactly the names of the blank
required fields, does so without consulting the number parser at all (the
outcome is the same for every parse function), and never reaches
`calculate_risk_reward`; and a blank optional cost or rebate field is
converted to 0 rather than parsed. -/
theorem missing_fields_rejected (parseNum parseNum' : String → Option ℚ)
    (r : RawInputs) :
    (missing_fields r ≠ [] →
      main_submit parseNum r =
        .missing (((required_fields r).filter (fun p => pyStrip p.1 = "")).map Prod.snd) ∧
      main_submit parseNum r = main_submit parseNum' r ∧
      ∀ risk reward, main_submit parseNum r ≠ .results risk reward) ∧
    submit_error_message (.missing (missing_fields r)) =
      some ("Please fill in the following required fields: " ++
        String.intercalate ", " (missing_fields r)) ∧
    (pyStrip r.tc_per_lot_str = "" → parse_optional parseNum r.tc_per_lot_str = some 0) ∧
    (pyStrip r.rebate_per_lot_str = "" →
      parse_optional parseNum r.rebate_per_lot_str = some 0) := by
  have hmiss : ∀ p : String → Option ℚ, missing_fields r ≠ [] →
      main_submit p r = .missing (missing_fields r) := by
    intro p hne
    unfold main_submit
    rw [if_neg hne]
  refine ⟨fun hne => ⟨hmiss parseNum hne, ?_, ?_⟩, rfl, ?_, ?_⟩
  · rw [hmiss parseNum hne, hmiss parseNum' hne]
  · intro risk reward h
    rw [hmiss parseNum hne] at h
    exact SubmitOutcome.noConfusion h
  · intro hblank
    unfold parse_optional
    rw [if_pos hblank]
  · intro hblank
    unfold parse_optional
    rw [if_pos hblank]

/-- Witness for C8: a form with a blank Average Price and a
whitespace-only Tick Size is rejected with exactly those two field names,
identically under two different parse functions, and the blank optional
fields default to 0. -/
theorem missing_fields_rejected_witness :
    main_submit (fun _ => none) ⟨"", "1", "2", " ", "3", "4", "5", "", ""⟩ =
      .missing (((required_fields ⟨"", "1", "2", " ", "3", "4", "5", "", ""⟩).filter
        (fun p => pyStrip p.1 = "")).map Prod.snd) ∧
    main_submit (fun _ => none) ⟨"", "1", "2", " ", "3", "4", "5", "", ""⟩ =
      main_submit (fun _ => some 1) ⟨"", "1", "2", " ", "3", "4", "5", "", ""⟩ ∧
    main_submit (fun _ => none) ⟨"", "1", "2", " ", "3", "4", "5", "", ""⟩ =
      .missing ["Average Price", "Tick Size"] ∧
    parse_optional (fun _ => none) "" = some 0 :=
  ⟨((missing_fields_rejected (fun _ => none) (fun _ => some 1) _).1 (by decide)).1,
   ((missing_fields_rejected (fun _ => none) (fun _ => some 1) _).1 (by decide)).2.1,
   by
    rw [((missing_fields_rejected (fun _ => none) (fun _ => some 1)
      ⟨"", "1", "2", " ", "3", "4", "5", "", ""⟩).1 (by decide)).1]
    decide,
   (missing_fields_rejected (fun _ => none) (fun _ => none)
      ⟨"", "1", "2", " ", "3", "4", "5", "", ""⟩).2.2.1 (by decide)⟩

end RiskReward
